import Mathlib

/-!
Verification development for `status_display.py`: a shallow embedding of the
script's metric collectors, Pi-hole HTTP session logic, and the main
render loop, with theorems settling the behavioural claims about them.

External effects (HTTP requests, SSH commands, file reads, the PiSugar2
battery library) are modelled as oracle values supplied to each function:
an `Except String α` models a Python call that either raises (`.error`)
or returns (`.ok`). A Python function that can itself raise is embedded
as returning `Except String _`; one whose whole body sits under
`try/except` returns a plain value.
-/

namespace StatusDisplay

/-- A Python value that a collector can hand to the rendering step:
a string, an int, a float (modelled exactly as a rational), or Python `None`. -/
inductive Val where
  | str (s : String)
  | intv (n : ℤ)
  | num (q : ℚ)
  | noneV
  deriving DecidableEq, Repr

/-- The failure sentinel string used throughout the script. -/
def NA : Val := Val.str "N/A"

/-- The sentinel values the spec's uniform error policy names: "N/A" or 0. -/
def isSentinel (v : Val) : Prop := v = Val.str "N/A" ∨ v = Val.intv 0

instance (v : Val) : Decidable (isSentinel v) := by
  unfold isSentinel; infer_instance

/-- True when an oracle call raised. -/
def isErrB {α : Type} : Except String α → Bool
  | Except.error _ => true
  | Except.ok _ => false

/-- Python `int()` truncation toward zero on a float, modelled on ℚ. -/
def pyInt (q : ℚ) : ℤ := if 0 ≤ q then ⌊q⌋ else -⌊-q⌋

/-- Round-half-to-even at integer precision, as Python `round` and
`format` spec both use banker's rounding. -/
def roundHalfEven (q : ℚ) : ℤ :=
  if q - ⌊q⌋ < 1 / 2 then ⌊q⌋
  else if 1 / 2 < q - ⌊q⌋ then ⌊q⌋ + 1
  else if ⌊q⌋ % 2 = 0 then ⌊q⌋ else ⌊q⌋ + 1

/-- Python `float("\x7b:.2f\x7d".format(q))`: q rounded to two decimal places. -/
def format2f (q : ℚ) : ℚ := (roundHalfEven (q * 100) : ℚ) / 100

/-- Python `round(q, 1)`: q rounded to one decimal place. -/
def pyRound1 (q : ℚ) : ℚ := (roundHalfEven (q * 10) : ℚ) / 10

/-! ### Secrets files (`read_user_from_file`, `read_password_from_file`)

The oracle is the outcome of `open` + `read`: the raw file contents, or a
raised exception. Both functions catch every exception and return `None`. -/

/-- Embeds `read_user_from_file`: returns the stripped file contents, or
Python `None` when reading raised. -/
def read_user_from_file (readResult : Except String String) : Val :=
  match readResult with
  | Except.ok s => Val.str s.trim
  | Except.error _ => Val.noneV

/-- Embeds `read_password_from_file`: returns the stripped file contents, or
Python `None` when reading raised. -/
def read_password_from_file (readResult : Except String String) : Val :=
  match readResult with
  | Except.ok s => Val.str s.trim
  | Except.error _ => Val.noneV

/-! ### PiSugar2 battery (`get_battery`)

The try block performs three external steps in order: `PiSugar2()` init,
`get_battery_percentage()`, and `set_pi_from_rtc()`; any raise anywhere in
the block yields "N/A". -/

/-- Oracle outcomes of the three external PiSugar2 calls made by `get_battery`. -/
structure BatteryWorld where
  initResult : Except String Unit
  levelResult : Except String ℚ
  rtcResult : Except String Unit

/-- Embeds `get_battery`: the battery percentage truncated to int, or "N/A"
when any of the three wrapped calls raises. -/
def get_battery (bw : BatteryWorld) : Val :=
  match bw.initResult with
  | Except.error _ => NA
  | Except.ok _ =>
    match bw.levelResult with
    | Except.error _ => NA
    | Except.ok v =>
      match bw.rtcResult with
      | Except.error _ => NA
      | Except.ok _ => Val.intv (pyInt v)

/-- Any of `get_battery`'s three wrapped external calls raised. -/
def batteryDepFails (bw : BatteryWorld) : Bool :=
  isErrB bw.initResult || isErrB bw.levelResult || isErrB bw.rtcResult

/-! ### Pi-hole HTTP API (`authenticate`, `logout`, `get_status`,
`get_blocked_percentage`)

JSON bodies are typed records with `Option` fields for `dict.get` lookups.
An HTTP GET has two failure layers, matching the source's ordering: the
request/`raise_for_status` pair can raise before `logout` runs, and
`response.json()` can raise after it. -/

/-- The `session` object of the auth response; `valid` and `sid` are read
with `.get`, so each may be absent (Python `None`). -/
structure SessionJson where
  valid : Option Bool
  sid : Option String
  deriving DecidableEq, Repr

/-- The body of a successful `POST /api/auth`; `session` is read with
`.get`, so it may be absent. -/
structure AuthJson where
  session : Option SessionJson
  deriving DecidableEq, Repr

/-- The body of `GET /api/dns/blocking`; `blocking` is read with `.get`. -/
structure BlockingJson where
  blocking : Option String
  deriving DecidableEq, Repr

/-- The `queries` object of the stats summary; `percent_blocked` is read
with `.get(_, 0.0)`. -/
structure QueriesJson where
  percent_blocked : Option ℚ
  deriving DecidableEq, Repr

/-- The body of `GET /api/stats/summary`; `queries` is accessed with
`[...]`, raising `KeyError` when absent. -/
structure SummaryJson where
  queries : Option QueriesJson
  deriving DecidableEq, Repr

/-- Outcome of one `requests.get` call: either the request or
`raise_for_status` raised, or a 2xx response arrived whose `.json()` body
parse may itself still raise. -/
inductive HttpGet (α : Type) where
  | connError (e : String)
  | okResp (body : Except String α)

/-- The GET succeeded at the HTTP level (2xx, no raise before `logout`). -/
def HttpGet.isOkResp {α : Type} : HttpGet α → Bool
  | HttpGet.connError _ => false
  | HttpGet.okResp _ => true

/-- Oracle outcomes of the HTTP calls one Pi-hole function can make. -/
structure World where
  postAuthResult : Except String AuthJson
  blockingResp : HttpGet BlockingJson
  summaryResp : HttpGet SummaryJson

/-- One observable HTTP request made against the Pi-hole API. -/
inductive HttpEvent where
  | postAuth (ip password : String)
  | getReq (ip path : String) (sid : Option String)
  | deleteAuth (ip : String) (sid : Option String)
  deriving DecidableEq, Repr

/-- URL path of the auth endpoint. -/
def apiAuthPath : String := "/api/auth"

/-- URL path of the DNS blocking endpoint. -/
def dnsBlockingPath : String := "/api/dns/blocking"

/-- URL path of the stats summary endpoint. -/
def statsSummaryPath : String := "/api/stats/summary"

/-- Embeds `authenticate`: given the outcome of the POST (request +
`raise_for_status` + `.json()`), it raises when the POST raised, raises
`AttributeError` when `session` is absent (`None.get`), raises the explicit
"session is not valid" error whenever `valid` is not truthy `True`, and
otherwise returns `session.get("sid")`. -/
def authenticate (postAuthResult : Except String AuthJson) :
    Except String (Option String) :=
  match postAuthResult with
  | Except.error e => Except.error e
  | Except.ok data =>
    match data.session with
    | none => Except.error "AttributeError: NoneType has no attribute get"
    | some s =>
      if s.valid = some true then Except.ok s.sid
      else Except.error "Error authenticating, session is not valid"

/-- Embeds `logout`: one DELETE to `/api/auth` with the sid header; its own
try/except swallows any failure, so it only contributes the request event
and never raises. -/
def logout (ip : String) (sid : Option String) : List HttpEvent :=
  [HttpEvent.deleteAuth ip sid]

/-- Embeds `get_blocked_percentage`: authenticate, GET the stats summary,
logout on HTTP success, then read `queries["percent_blocked"]` with default
0.0 and round it via `float("\x7b:.2f\x7d".format(_))`; every failure path
returns "N/A". Alongside the value it returns the list of HTTP requests
made, in order. -/
def get_blocked_percentage (w : World) (ip password : String) :
    Val × List HttpEvent :=
  match authenticate w.postAuthResult with
  | Except.error _ => (NA, [HttpEvent.postAuth ip password])
  | Except.ok sid =>
    match w.summaryResp with
    | HttpGet.connError _ =>
      (NA, [HttpEvent.postAuth ip password,
            HttpEvent.getReq ip statsSummaryPath sid])
    | HttpGet.okResp body =>
      let evs := [HttpEvent.postAuth ip password,
                  HttpEvent.getReq ip statsSummaryPath sid] ++ logout ip sid
      match body with
      | Except.error _ => (NA, evs)
      | Except.ok summary =>
        match summary.queries with
        | none => (NA, evs)
        | some qs => (Val.num (format2f (qs.percent_blocked.getD 0)), evs)

/-- Embeds `get_status`: authenticate, GET the DNS blocking state, logout on
HTTP success, then return `dns_blocking.get("blocking")`; every failure path
returns "N/A". Alongside the value it returns the list of HTTP requests
made, in order. -/
def get_status (w : World) (ip password : String) : Val × List HttpEvent :=
  match authenticate w.postAuthResult with
  | Except.error _ => (NA, [HttpEvent.postAuth ip password])
  | Except.ok sid =>
    match w.blockingResp with
    | HttpGet.connError _ =>
      (NA, [HttpEvent.postAuth ip password,
            HttpEvent.getReq ip dnsBlockingPath sid])
    | HttpGet.okResp body =>
      let evs := [HttpEvent.postAuth ip password,
                  HttpEvent.getReq ip dnsBlockingPath sid] ++ logout ip sid
      match body with
      | Except.error _ => (NA, evs)
      | Except.ok dns =>
        match dns.blocking with
        | none => (Val.noneV, evs)
        | some b => (Val.str b, evs)

/-- The wrapped dependencies of `get_status` failed somewhere: authentication
raised, the GET raised, or the body parse raised. -/
def statusDepFails (w : World) : Bool :=
  isErrB (authenticate w.postAuthResult) ||
  (match w.blockingResp with
   | HttpGet.connError _ => true
   | HttpGet.okResp body => isErrB body)

/-- The wrapped dependencies of `get_blocked_percentage` failed somewhere:
authentication raised, the GET raised, or the body parse raised. -/
def summaryDepFails (w : World) : Bool :=
  isErrB (authenticate w.postAuthResult) ||
  (match w.summaryResp with
   | HttpGet.connError _ => true
   | HttpGet.okResp body => isErrB body)

/-! ### Local and remote system metrics (`get_uptime`, `get_cpu_temp`,
`get_remote_uptime`, `get_remote_cpu_temp`)

The oracle for each is the parsed payload its external read produces:
uptime seconds as a float (ℚ) or millidegrees as an int, or a raise
covering any failure of the read/command/parse chain. -/

/-- The uptime formatting done inside `get_uptime` (lines 128-131):
`f"\x7bint(s // 3600)\x7dh \x7bint((s % 3600) // 60)\x7dm"`. -/
def get_uptime_format (s : ℚ) : String :=
  toString ⌊s / 3600⌋ ++ "h " ++ toString ⌊(s - 3600 * (⌊s / 3600⌋ : ℚ)) / 60⌋ ++ "m"

/-- The uptime formatting done inside `get_remote_uptime` (lines 149-152),
written out separately because it is separate code in the source. -/
def get_remote_uptime_format (s : ℚ) : String :=
  toString ⌊s / 3600⌋ ++ "h " ++ toString ⌊(s - 3600 * (⌊s / 3600⌋ : ℚ)) / 60⌋ ++ "m"

/-- The temperature computation inside `get_cpu_temp` (line 137):
`round(raw / 1000, 1)` on the parsed millidegree int. -/
def get_cpu_temp_calc (raw : ℤ) : ℚ := pyRound1 ((raw : ℚ) / 1000)

/-- The temperature computation inside `get_remote_cpu_temp` (line 163),
written out separately because it is separate code in the source. -/
def get_remote_cpu_temp_calc (raw : ℤ) : ℚ := pyRound1 ((raw : ℚ) / 1000)

/-- Embeds `get_uptime`: it has NO try/except, so a raise in the
`/proc/uptime` read/parse propagates to the caller (`.error`); on success it
returns the formatted string. -/
def get_uptime (readResult : Except String ℚ) : Except String Val :=
  match readResult with
  | Except.error e => Except.error e
  | Except.ok s => Except.ok (Val.str (get_uptime_format s))

/-- Embeds `get_cpu_temp`: the thermal-zone read and parse are wrapped, any
raise yields "N/A". -/
def get_cpu_temp (readResult : Except String ℤ) : Val :=
  match readResult with
  | Except.error _ => NA
  | Except.ok raw => Val.num (get_cpu_temp_calc raw)

/-- Embeds `get_remote_uptime`: the sshpass command and parse are wrapped,
any raise yields the integer 0 (not "N/A"). -/
def get_remote_uptime (cmdResult : Except String ℚ) : Val :=
  match cmdResult with
  | Except.error _ => Val.intv 0
  | Except.ok s => Val.str (get_remote_uptime_format s)

/-- Embeds `get_remote_cpu_temp`: the sshpass command and parse are wrapped,
any raise yields "N/A". -/
def get_remote_cpu_temp (cmdResult : Except String ℤ) : Val :=
  match cmdResult with
  | Except.error _ => NA
  | Except.ok raw => Val.num (get_remote_cpu_temp_calc raw)

/-! ### The main run (`main`)

`main` reads the secrets, inits the panel, collects all nine metrics
strictly sequentially, and only then draws the twelve text items and pushes
the frame. `get_uptime` is the only collector that can raise; if it does,
`main` aborts there with an unhandled exception and nothing further runs.
The run is modelled as the ordered list of observable steps it performs. -/

/-- The hardcoded first Pi-hole address. -/
def pihole1_ip : String := "192.168.50.135"

/-- The hardcoded second Pi-hole address (used only as a column label). -/
def pihole2_ip : String := "192.168.50.136"

/-- The hardcoded loopback address actually queried for the second column. -/
def localhost : String := "127.0.0.1"

/-- How a collected value appears inside an f-string: strings verbatim,
ints and floats printed, Python `None` as "None". -/
def showVal : Val → String
  | Val.str s => s
  | Val.intv n => toString n
  | Val.num q => toString q
  | Val.noneV => "None"

/-- One observable step of a `main` run. -/
inductive MainEvent where
  | readSecret (which : String)
  | epdInit
  | newImage
  | collectCall (name : String)
  | timeNow
  | loadFonts
  | drawText (x y : ℤ) (s : String)
  | rotateImage
  | invertImage
  | pushDisplay
  | panelSleep
  deriving DecidableEq, Repr

/-- Oracle outcomes for every external call one `main` run can make. -/
structure MainWorld where
  pwRead : Except String String
  userRead : Except String String
  pihole1 : World
  pihole2 : World
  remoteUptimeCmd : Except String ℚ
  remoteTempCmd : Except String ℤ
  uptimeRead : Except String ℚ
  cpuTempRead : Except String ℤ
  battery : BatteryWorld
  nowStr : String

/-- The twelve `draw.text` calls of `main`, lines 224-239: fixed anchor
coordinates and the f-strings built from the collected values (the second
temperature line really ends in "%" in the source). -/
def drawCalls (w : MainWorld) (pihole2_uptime : String) :
    List (ℤ × ℤ × String) :=
  let password := showVal (read_password_from_file w.pwRead)
  let pihole1_status := (get_status w.pihole1 pihole1_ip password).1
  let pihole1_blocked := (get_blocked_percentage w.pihole1 pihole1_ip password).1
  let pihole1_uptime := get_remote_uptime w.remoteUptimeCmd
  let pihole1_cpu := get_remote_cpu_temp w.remoteTempCmd
  let pihole2_status := (get_status w.pihole2 localhost password).1
  let pihole2_blocked := (get_blocked_percentage w.pihole2 localhost password).1
  let pihole2_temp := get_cpu_temp w.cpuTempRead
  let battery := get_battery w.battery
  [ (10, 6, pihole1_ip),
    (10, 25, "Status: " ++ showVal pihole1_status),
    (10, 44, "Uptime: " ++ showVal pihole1_uptime),
    (10, 63, "Blocked: " ++ showVal pihole1_blocked ++ "%"),
    (10, 82, "Temp: " ++ showVal pihole1_cpu ++ "ºC"),
    (130, 6, pihole2_ip),
    (130, 25, "Status: " ++ showVal pihole2_status),
    (130, 44, "Uptime: " ++ pihole2_uptime),
    (130, 63, "Blocked: " ++ showVal pihole2_blocked ++ "%"),
    (130, 82, "Temp: " ++ showVal pihole2_temp ++ "%"),
    (10, 101, "[" ++ showVal battery ++ "%]"),
    (160, 101, w.nowStr) ]

/-- The steps of `main` up to and including its last collector call: the
secrets reads, panel init, image creation, and the nine sequential metric
collections. When `get_uptime` raises, the run ends inside its call. -/
def collectPhase (w : MainWorld) : List MainEvent :=
  [ MainEvent.readSecret "password", MainEvent.readSecret "user",
    MainEvent.epdInit, MainEvent.newImage,
    MainEvent.collectCall "pihole1_status",
    MainEvent.collectCall "pihole1_blocked_percentage",
    MainEvent.collectCall "pihole1_uptime",
    MainEvent.collectCall "pihole1_cpu_temperature",
    MainEvent.collectCall "pihole2_status",
    MainEvent.collectCall "pihole2_blocked_percentage",
    MainEvent.collectCall "pihole2_uptime" ] ++
  match get_uptime w.uptimeRead with
  | Except.error _ => []
  | Except.ok _ =>
    [ MainEvent.collectCall "pihole2_cpu_temperature",
      MainEvent.collectCall "battery_percentage" ]

/-- The steps of `main` after all collection: timestamp, fonts, the twelve
text draws, rotation, inversion, the display push and the panel sleep.
Empty when `get_uptime` raised and the run aborted. -/
def renderPhase (w : MainWorld) : List MainEvent :=
  match get_uptime w.uptimeRead with
  | Except.error _ => []
  | Except.ok up =>
    [MainEvent.timeNow, MainEvent.loadFonts] ++
    (drawCalls w (showVal up)).map
      (fun c => MainEvent.drawText c.1 c.2.1 c.2.2) ++
    [ MainEvent.rotateImage, MainEvent.invertImage,
      MainEvent.pushDisplay, MainEvent.panelSleep ]

/-- The full ordered trace of one `main` run, lines 169-244. -/
def mainTrace (w : MainWorld) : List MainEvent :=
  collectPhase w ++ renderPhase w

/-- The step is a metric-collection call. -/
def isCollectEv : MainEvent → Bool
  | MainEvent.collectCall _ => true
  | _ => false

/-- The step renders collected values or pushes the frame to the panel. -/
def isRenderEv : MainEvent → Bool
  | MainEvent.drawText _ _ _ => true
  | MainEvent.rotateImage => true
  | MainEvent.invertImage => true
  | MainEvent.pushDisplay => true
  | _ => false

/-! ### Battery bar (spec section 8, property (b)) -/

/-- Modelled from the spec: this script variant renders the battery level as
text only (`draw.text((10, 101), f"[\x7bbattery_percentage\x7d%]")`, line
238); the battery-bar drawing that spec property (b) describes lives in a
sibling script variant that is not under src/. Following the spec's words,
the bar's pixel width is the battery percentage clamped to 0-100 and scaled
onto 0-bar_max pixels. -/
def battery_bar_width (bar_max : ℕ) (p : ℤ) : ℤ :=
  (bar_max : ℤ) * (min 100 (max 0 p)) / 100

/-! ### Concrete worlds used to evaluate the definitions on explicit inputs -/

/-- A session the API marks valid, carrying sid "S". -/
def validSession : SessionJson := ⟨some true, some "S"⟩

/-- An auth POST that succeeded and returned a valid session. -/
def okAuth : Except String AuthJson := Except.ok ⟨some validSession⟩

/-- A battery world whose PiSugar2 init raised. -/
def bwFail : BatteryWorld := ⟨Except.error "i2c down", Except.ok 50, Except.ok ()⟩

/-- A Pi-hole world where every HTTP call fails at the connection level. -/
def wFail : World :=
  ⟨Except.error "conn refused", HttpGet.connError "conn refused",
   HttpGet.connError "conn refused"⟩

/-- A Pi-hole world where auth succeeds but both GETs raise before any
response arrives. -/
def wAuthOkGetFail : World :=
  ⟨okAuth, HttpGet.connError "conn refused", HttpGet.connError "conn refused"⟩

/-- A Pi-hole world where every call succeeds; the summary reports
percent_blocked = 12.345. -/
def wAllOk : World :=
  ⟨okAuth, HttpGet.okResp (Except.ok ⟨some "enabled"⟩),
   HttpGet.okResp (Except.ok ⟨some ⟨some (2469 / 200)⟩⟩)⟩

/-- A Pi-hole world where every call succeeds but the summary's queries
object lacks the percent_blocked key. -/
def wNoKey : World :=
  ⟨okAuth, HttpGet.okResp (Except.ok ⟨some "enabled"⟩),
   HttpGet.okResp (Except.ok ⟨some ⟨none⟩⟩)⟩

/-- A fully healthy main-run world. -/
def mwAllOk : MainWorld :=
  ⟨Except.ok "pw", Except.ok "user", wAllOk, wAllOk, Except.ok 7200,
   Except.ok 45123, Except.ok 3661, Except.ok 51900,
   ⟨Except.ok (), Except.ok 87, Except.ok ()⟩, "12/10 12:00"⟩

/-! ## Shared helper lemmas -/

/-- Any failure among `get_battery`'s wrapped calls yields the "N/A"
sentinel. -/
theorem battery_na (bw : BatteryWorld) (h : batteryDepFails bw = true) :
    get_battery bw = NA := by
  rcases bw with ⟨i, l, r⟩
  cases i <;> cases l <;> cases r <;>
    simp_all [get_battery, batteryDepFails, isErrB]

/-- Any failure among `get_status`'s wrapped calls yields the "N/A"
sentinel. -/
theorem status_na (w : World) (ip pw : String) (h : statusDepFails w = true) :
    (get_status w ip pw).1 = NA := by
  unfold statusDepFails at h
  cases hA : authenticate w.postAuthResult with
  | error e => simp [get_status, hA]
  | ok sid =>
    rw [hA] at h
    cases hB : w.blockingResp with
    | connError e => simp [get_status, hA, hB]
    | okResp body =>
      rw [hB] at h
      cases body with
      | error e2 => simp [get_status, hA, hB]
      | ok dns => simp [isErrB] at h

/-- Any failure among `get_blocked_percentage`'s wrapped calls yields the
"N/A" sentinel. -/
theorem summary_na (w : World) (ip pw : String)
    (h : summaryDepFails w = true) :
    (get_blocked_percentage w ip pw).1 = NA := by
  unfold summaryDepFails at h
  cases hA : authenticate w.postAuthResult with
  | error e => simp [get_blocked_percentage, hA]
  | ok sid =>
    rw [hA] at h
    cases hB : w.summaryResp with
    | connError e => simp [get_blocked_percentage, hA, hB]
    | okResp body =>
      rw [hB] at h
      cases body with
      | error e2 => simp [get_blocked_percentage, hA, hB]
      | ok summary => simp [isErrB] at h

/-! ## Claim C1 -/

/-- C1 counterexample: the claim fails for the local-uptime collector.
`get_uptime` has no try/except: when the `/proc/uptime` read raises, the
exception propagates to the caller instead of any sentinel being
returned. -/
theorem C1_get_uptime_propagates_cex :
    get_uptime (Except.error "boom") = Except.error "boom" ∧
    ¬ ∃ v : Val, get_uptime (Except.error "boom") = Except.ok v := by
  constructor
  · rfl
  · rintro ⟨v, hv⟩
    simp [get_uptime] at hv

/-- C1 (amended): every metric collector except the local-uptime one
returns a sentinel instead of propagating when its wrapped external
dependency raises — "N/A" for battery, DNS-filter status, blocked
percentage, and both CPU temperatures, and 0 for remote uptime — while
`get_uptime`, which has no exception handler, propagates the raise. -/
theorem C1_collectors_sentinel_on_failure :
    (∀ bw : BatteryWorld, batteryDepFails bw = true → get_battery bw = NA) ∧
    (∀ (w : World) (ip pw : String), statusDepFails w = true →
      (get_status w ip pw).1 = NA) ∧
    (∀ (w : World) (ip pw : String), summaryDepFails w = true →
      (get_blocked_percentage w ip pw).1 = NA) ∧
    (∀ e : String, get_cpu_temp (Except.error e) = NA) ∧
    (∀ e : String, get_remote_uptime (Except.error e) = Val.intv 0) ∧
    (∀ e : String, get_remote_cpu_temp (Except.error e) = NA) ∧
    (∀ e : String, get_uptime (Except.error e) = Except.error e) :=
  ⟨battery_na, status_na, summary_na, fun _ => rfl, fun _ => rfl,
   fun _ => rfl, fun _ => rfl⟩

/-- C1 witness: the amended theorem applied to concrete failing worlds. -/
theorem C1_collectors_sentinel_on_failure_witness :
    batteryDepFails bwFail = true ∧ get_battery bwFail = NA ∧
    statusDepFails wFail = true ∧
    (get_status wFail "192.168.50.135" "pw").1 = NA ∧
    summaryDepFails wFail = true ∧
    (get_blocked_percentage wFail "192.168.50.135" "pw").1 = NA :=
  ⟨rfl, C1_collectors_sentinel_on_failure.1 bwFail rfl, rfl,
   C1_collectors_sentinel_on_failure.2.1 wFail "192.168.50.135" "pw" rfl, rfl,
   C1_collectors_sentinel_on_failure.2.2.1 wFail "192.168.50.135" "pw" rfl⟩

/-! ## Claim C3 -/

/-- C3 counterexample: the claim fails for the secrets-file wrappers.
`read_user_from_file` substitutes Python `None` — neither "N/A" nor 0 —
when the file read raises. -/
theorem C3_reader_none_cex :
    read_user_from_file (Except.error "boom") = Val.noneV ∧
    read_password_from_file (Except.error "boom") = Val.noneV ∧
    ¬ isSentinel (read_user_from_file (Except.error "boom")) := by
  refine ⟨rfl, rfl, ?_⟩
  decide

/-- C3 (amended): the two secrets-file wrappers substitute Python `None` on
failure; every metric-collector wrapper substitutes one of the sentinels
"N/A" or 0. -/
theorem C3_wrapper_failure_values :
    (∀ e : String, read_user_from_file (Except.error e) = Val.noneV) ∧
    (∀ e : String, read_password_from_file (Except.error e) = Val.noneV) ∧
    (∀ bw : BatteryWorld, batteryDepFails bw = true →
      isSentinel (get_battery bw)) ∧
    (∀ (w : World) (ip pw : String), statusDepFails w = true →
      isSentinel (get_status w ip pw).1) ∧
    (∀ (w : World) (ip pw : String), summaryDepFails w = true →
      isSentinel (get_blocked_percentage w ip pw).1) ∧
    (∀ e : String, isSentinel (get_cpu_temp (Except.error e))) ∧
    (∀ e : String, isSentinel (get_remote_uptime (Except.error e))) ∧
    (∀ e : String, isSentinel (get_remote_cpu_temp (Except.error e))) :=
  ⟨fun _ => rfl, fun _ => rfl,
   fun bw h => Or.inl (battery_na bw h),
   fun w ip pw h => Or.inl (status_na w ip pw h),
   fun w ip pw h => Or.inl (summary_na w ip pw h),
   fun _ => Or.inl rfl, fun _ => Or.inr rfl, fun _ => Or.inl rfl⟩

/-- C3 witness: the amended theorem applied to concrete failing worlds. -/
theorem C3_wrapper_failure_values_witness :
    read_user_from_file (Except.error "boom") = Val.noneV ∧
    batteryDepFails bwFail = true ∧ isSentinel (get_battery bwFail) ∧
    statusDepFails wFail = true ∧
    isSentinel (get_status wFail "192.168.50.135" "pw").1 ∧
    summaryDepFails wFail = true ∧
    isSentinel (get_blocked_percentage wFail "192.168.50.135" "pw").1 :=
  ⟨C3_wrapper_failure_values.1 "boom", rfl,
   C3_wrapper_failure_values.2.2.1 bwFail rfl, rfl,
   C3_wrapper_failure_values.2.2.2.1 wFail "192.168.50.135" "pw" rfl, rfl,
   C3_wrapper_failure_values.2.2.2.2.1 wFail "192.168.50.135" "pw" rfl⟩

/-! ## Claim C2 -/

/-- C2 counterexample: in a world where authentication succeeds (sid "S")
but the authenticated GET raises, both `get_blocked_percentage` and
`get_status` return without ever issuing the DELETE logout: their request
traces contain no `deleteAuth` at all. -/
theorem C2_logout_skipped_cex :
    authenticate wAuthOkGetFail.postAuthResult = Except.ok (some "S") ∧
    (get_blocked_percentage wAuthOkGetFail pihole1_ip "pw").2 =
      [HttpEvent.postAuth pihole1_ip "pw",
       HttpEvent.getReq pihole1_ip statsSummaryPath (some "S")] ∧
    HttpEvent.deleteAuth pihole1_ip (some "S") ∉
      (get_blocked_percentage wAuthOkGetFail pihole1_ip "pw").2 ∧
    (get_status wAuthOkGetFail pihole1_ip "pw").2 =
      [HttpEvent.postAuth pihole1_ip "pw",
       HttpEvent.getReq pihole1_ip dnsBlockingPath (some "S")] ∧
    HttpEvent.deleteAuth pihole1_ip (some "S") ∉
      (get_status wAuthOkGetFail pihole1_ip "pw").2 := by
  refine ⟨rfl, rfl, ?_, rfl, ?_⟩ <;> decide

/-- C2 (amended): after a successful authentication returning sid, the
explicit logout (DELETE /api/auth with that sid) is performed if and only
if the subsequent authenticated GET succeeds at the HTTP level (no raise
from the request or `raise_for_status`); when the GET raises, the function
returns "N/A" without logging out. A failure of the later `.json()` parse
does not skip the logout, which has already run. -/
theorem C2_logout_iff_http_ok :
    ∀ (w : World) (ip pw : String) (sid : Option String),
      authenticate w.postAuthResult = Except.ok sid →
      ((HttpEvent.deleteAuth ip sid ∈ (get_blocked_percentage w ip pw).2 ↔
          w.summaryResp.isOkResp = true) ∧
       (HttpEvent.deleteAuth ip sid ∈ (get_status w ip pw).2 ↔
          w.blockingResp.isOkResp = true)) := by
  intro w ip pw sid h
  constructor
  · unfold get_blocked_percentage
    rw [h]
    cases hB : w.summaryResp with
    | connError e => simp [HttpGet.isOkResp]
    | okResp body =>
      cases body with
      | error e2 => simp [HttpGet.isOkResp, logout]
      | ok summary =>
        cases hq : summary.queries with
        | none => simp [HttpGet.isOkResp, logout, hq]
        | some qs => simp [HttpGet.isOkResp, logout, hq]
  · unfold get_status
    rw [h]
    cases hB : w.blockingResp with
    | connError e => simp [HttpGet.isOkResp]
    | okResp body =>
      cases body with
      | error e2 => simp [HttpGet.isOkResp, logout]
      | ok dns =>
        cases hb : dns.blocking with
        | none => simp [HttpGet.isOkResp, logout, hb]
        | some b => simp [HttpGet.isOkResp, logout, hb]

/-- C2 witness: the amended theorem applied to a fully healthy world, where
the logout request is indeed present in both traces. -/
theorem C2_logout_iff_http_ok_witness :
    authenticate wAllOk.postAuthResult = Except.ok (some "S") ∧
    HttpEvent.deleteAuth pihole1_ip (some "S") ∈
      (get_blocked_percentage wAllOk pihole1_ip "pw").2 ∧
    HttpEvent.deleteAuth pihole1_ip (some "S") ∈
      (get_status wAllOk pihole1_ip "pw").2 :=
  ⟨rfl,
   ((C2_logout_iff_http_ok wAllOk pihole1_ip "pw" (some "S") rfl).1).mpr rfl,
   ((C2_logout_iff_http_ok wAllOk pihole1_ip "pw" (some "S") rfl).2).mpr rfl⟩

/-! ## Claim C4 -/

/-- C4: the battery-bar pixel width is monotone in the percentage, always
lies in [0, bar_max], and maps the endpoints 0 and 100 onto 0 and bar_max
pixels. -/
theorem C4_battery_bar_monotone_clamped (bar_max : ℕ) :
    (∀ p1 p2 : ℤ, p1 ≤ p2 →
      battery_bar_width bar_max p1 ≤ battery_bar_width bar_max p2) ∧
    (∀ p : ℤ, 0 ≤ battery_bar_width bar_max p ∧
      battery_bar_width bar_max p ≤ (bar_max : ℤ)) ∧
    battery_bar_width bar_max 0 = 0 ∧
    battery_bar_width bar_max 100 = (bar_max : ℤ) := by
  have hbm : (0 : ℤ) ≤ (bar_max : ℤ) := Int.natCast_nonneg bar_max
  refine ⟨?_, ?_, ?_, ?_⟩
  · intro p1 p2 h
    unfold battery_bar_width
    apply Int.ediv_le_ediv (by norm_num)
    apply mul_le_mul_of_nonneg_left _ hbm
    exact min_le_min le_rfl (max_le_max le_rfl h)
  · intro p
    unfold battery_bar_width
    constructor
    · apply Int.ediv_nonneg _ (by norm_num)
      apply mul_nonneg hbm
      exact le_min (by norm_num) (le_max_left 0 p)
    · calc (bar_max : ℤ) * (min 100 (max 0 p)) / 100
          ≤ (bar_max : ℤ) * 100 / 100 := by
            apply Int.ediv_le_ediv (by norm_num)
            exact mul_le_mul_of_nonneg_left (min_le_left _ _) hbm
        _ = (bar_max : ℤ) := Int.mul_ediv_cancel _ (by norm_num)
  · unfold battery_bar_width
    norm_num
  · unfold battery_bar_width
    norm_num

/-- C4 witness: the theorem applied at bar_max = 40 with percentages
30 ≤ 60. -/
theorem C4_battery_bar_monotone_clamped_witness :
    (30 : ℤ) ≤ 60 ∧
    battery_bar_width 40 30 ≤ battery_bar_width 40 60 ∧
    0 ≤ battery_bar_width 40 130 ∧ battery_bar_width 40 130 ≤ 40 ∧
    battery_bar_width 40 0 = 0 ∧ battery_bar_width 40 100 = 40 :=
  ⟨by norm_num,
   (C4_battery_bar_monotone_clamped 40).1 30 60 (by norm_num),
   ((C4_battery_bar_monotone_clamped 40).2.1 130).1,
   ((C4_battery_bar_monotone_clamped 40).2.1 130).2,
   (C4_battery_bar_monotone_clamped 40).2.2.1,
   (C4_battery_bar_monotone_clamped 40).2.2.2⟩

/-! ## Claim C5 -/

/-- An element fetched past the left part of an append lies in the right
part. -/
theorem get_append_mem_right {α : Type} {l1 l2 : List α} {i : ℕ}
    (hi : i < (l1 ++ l2).length) (h : l1.length ≤ i) :
    (l1 ++ l2).get ⟨i, hi⟩ ∈ l2 := by
  rw [List.get_eq_getElem, List.getElem_append_right h]
  exact List.getElem_mem _

/-- An element fetched before the end of the left part of an append lies in
the left part. -/
theorem get_append_mem_left {α : Type} {l1 l2 : List α} {i : ℕ}
    (hi : i < (l1 ++ l2).length) (h : i < l1.length) :
    (l1 ++ l2).get ⟨i, hi⟩ ∈ l1 := by
  rw [List.get_eq_getElem, List.getElem_append_left h]
  exact List.getElem_mem _

/-- In a two-phase list where the predicate q never holds in the first part
and p never holds in the second, any p-position precedes any q-position. -/
theorem phase_split_lt {α : Type} (l1 l2 : List α) (p q : α → Bool)
    (i j : ℕ) (hi : i < (l1 ++ l2).length) (hj : j < (l1 ++ l2).length)
    (hp : p ((l1 ++ l2).get ⟨i, hi⟩) = true)
    (hq : q ((l1 ++ l2).get ⟨j, hj⟩) = true)
    (h1 : ∀ e ∈ l1, q e = false) (h2 : ∀ e ∈ l2, p e = false) : i < j := by
  have hi1 : i < l1.length := by
    by_contra hc
    push_neg at hc
    have hmem := get_append_mem_right hi hc
    have := h2 _ hmem
    rw [hp] at this
    exact Bool.noConfusion this
  have hj1 : l1.length ≤ j := by
    by_contra hc
    push_neg at hc
    have hmem := get_append_mem_left hj hc
    have := h1 _ hmem
    rw [hq] at this
    exact Bool.noConfusion this
  exact lt_of_lt_of_le hi1 hj1

/-- No step of the collection phase is a rendering step. -/
theorem collectPhase_no_render (w : MainWorld) :
    ∀ e ∈ collectPhase w, isRenderEv e = false := by
  intro e he
  unfold collectPhase at he
  cases hu : w.uptimeRead with
  | error msg =>
    rw [hu] at he
    simp [get_uptime] at he
    rcases he with rfl | rfl | rfl | rfl | rfl | rfl | rfl | rfl | rfl | rfl | rfl <;> rfl
  | ok s =>
    rw [hu] at he
    simp [get_uptime] at he
    rcases he with rfl | rfl | rfl | rfl | rfl | rfl | rfl | rfl | rfl | rfl | rfl | rfl | rfl <;> rfl

/-- No step of the rendering phase is a collection call. -/
theorem renderPhase_no_collect (w : MainWorld) :
    ∀ e ∈ renderPhase w, isCollectEv e = false := by
  intro e he
  unfold renderPhase at he
  cases hu : w.uptimeRead with
  | error msg =>
    rw [hu] at he
    simp [get_uptime] at he
  | ok s =>
    rw [hu] at he
    simp [get_uptime, List.mem_append, List.mem_map] at he
    rcases he with rfl | rfl | ⟨a, b, c, _, rfl⟩ | rfl | rfl | rfl | rfl <;> rfl

/-- C5: in every run of `main`, every metric-collection call occurs strictly
before every rendering step and before the display push: collection is
sequential and fully completed before rendering begins. -/
theorem C5_main_collect_before_render :
    ∀ (w : MainWorld) (i j : ℕ)
      (hi : i < (mainTrace w).length) (hj : j < (mainTrace w).length),
      isCollectEv ((mainTrace w).get ⟨i, hi⟩) = true →
      isRenderEv ((mainTrace w).get ⟨j, hj⟩) = true → i < j := by
  intro w i j hi hj hp hq
  exact phase_split_lt (collectPhase w) (renderPhase w) isCollectEv isRenderEv
    i j hi hj hp hq (collectPhase_no_render w) (renderPhase_no_collect w)

/-- C5 witness: in the healthy concrete run, the first Pi-hole status
collection (position 4) precedes the first text draw (position 15). -/
theorem C5_main_collect_before_render_witness :
    isCollectEv ((mainTrace mwAllOk).get ⟨4, by decide⟩) = true ∧
    isRenderEv ((mainTrace mwAllOk).get ⟨15, by decide⟩) = true ∧
    (4 : ℕ) < 15 :=
  ⟨rfl, rfl,
   C5_main_collect_before_render mwAllOk 4 15 (by decide) (by decide) rfl rfl⟩

/-! ## Claim C7 -/

/-- C7: the session functions first POST the password to /api/auth, and
`authenticate` returns the response's sid exactly when the response marks
the session valid: a returned sid implies a session with `valid = True` and
conversely; with a session not marked valid it raises instead of returning
a sid. -/
theorem C7_authenticate_ok_iff_valid :
    (∀ (w : World) (ip pw : String),
      (get_status w ip pw).2.head? = some (HttpEvent.postAuth ip pw) ∧
      (get_blocked_percentage w ip pw).2.head? =
        some (HttpEvent.postAuth ip pw)) ∧
    (∀ data : AuthJson,
      (∃ sid, authenticate (Except.ok data) = Except.ok sid) ↔
      (∃ s, data.session = some s ∧ s.valid = some true)) ∧
    (∀ s : SessionJson, s.valid = some true →
      authenticate (Except.ok ⟨some s⟩) = Except.ok s.sid) ∧
    (∀ s : SessionJson, s.valid ≠ some true →
      ∃ e, authenticate (Except.ok ⟨some s⟩) = Except.error e) := by
  refine ⟨?_, ?_, ?_, ?_⟩
  · intro w ip pw
    constructor
    · unfold get_status
      cases authenticate w.postAuthResult with
      | error e => rfl
      | ok sid =>
        cases w.blockingResp with
        | connError e => rfl
        | okResp body =>
          cases body with
          | error e2 => rfl
          | ok dns => cases hb : dns.blocking <;> simp [hb, logout]
    · unfold get_blocked_percentage
      cases authenticate w.postAuthResult with
      | error e => rfl
      | ok sid =>
        cases w.summaryResp with
        | connError e => rfl
        | okResp body =>
          cases body with
          | error e2 => rfl
          | ok summary => cases hq : summary.queries <;> simp [hq, logout]
  · intro data
    constructor
    · rintro ⟨sid, h⟩
      obtain ⟨session⟩ := data
      cases session with
      | none => simp [authenticate] at h
      | some s =>
        by_cases hv : s.valid = some true
        · exact ⟨s, rfl, hv⟩
        · simp [authenticate, if_neg hv] at h
    · rintro ⟨s, hs, hv⟩
      exact ⟨s.sid, by simp [authenticate, hs, hv]⟩
  · intro s hv
    simp [authenticate, hv]
  · intro s hv
    exact ⟨"Error authenticating, session is not valid",
      by simp [authenticate, if_neg hv]⟩

/-- C7 witness: the theorem applied to a valid session (sid returned) and
to one marked not valid (an error raised). -/
theorem C7_authenticate_ok_iff_valid_witness :
    validSession.valid = some true ∧
    authenticate (Except.ok ⟨some validSession⟩) = Except.ok (some "S") ∧
    (⟨some false, some "S"⟩ : SessionJson).valid ≠ some true ∧
    (∃ e, authenticate
      (Except.ok ⟨some (⟨some false, some "S"⟩ : SessionJson)⟩) =
      Except.error e) :=
  ⟨rfl, C7_authenticate_ok_iff_valid.2.2.1 validSession rfl, by decide,
   C7_authenticate_ok_iff_valid.2.2.2 ⟨some false, some "S"⟩ (by decide)⟩

/-! ## Claim C8 -/

/-- C8: the local and remote collectors apply the same transformation to
the same raw input — both uptime formatters produce the spec's
floor(s/3600) h, floor((s mod 3600)/60) m string, and both temperature
computations produce round(raw/1000, 1). -/
theorem C8_local_remote_same_transform :
    ∀ (s : ℚ) (raw : ℤ),
      get_uptime_format s = get_remote_uptime_format s ∧
      get_uptime_format s =
        toString ⌊s / 3600⌋ ++ "h " ++
          toString ⌊(s - 3600 * (⌊s / 3600⌋ : ℚ)) / 60⌋ ++ "m" ∧
      get_uptime (Except.ok s) =
        Except.ok (Val.str (get_remote_uptime_format s)) ∧
      get_remote_uptime (Except.ok s) = Val.str (get_uptime_format s) ∧
      get_cpu_temp_calc raw = get_remote_cpu_temp_calc raw ∧
      get_cpu_temp_calc raw = pyRound1 ((raw : ℚ) / 1000) ∧
      get_cpu_temp (Except.ok raw) = get_remote_cpu_temp (Except.ok raw) :=
  fun _ _ => ⟨rfl, rfl, rfl, rfl, rfl, rfl, rfl⟩

/-! ## Claims C9 and C10 -/

/-- Half-even rounding moves a rational by at most one half. -/
theorem roundHalfEven_dist (q : ℚ) : |(roundHalfEven q : ℚ) - q| ≤ 1 / 2 := by
  have h0 : (⌊q⌋ : ℚ) ≤ q := Int.floor_le q
  have h1 : q < (⌊q⌋ : ℚ) + 1 := Int.lt_floor_add_one q
  unfold roundHalfEven
  split_ifs with ha hb hc
  · rw [abs_le]
    constructor <;> linarith
  · rw [abs_le]
    push_cast
    constructor <;> linarith
  · rw [not_lt] at ha hb
    rw [abs_le]
    constructor <;> linarith
  · rw [not_lt] at ha hb
    rw [abs_le]
    push_cast
    constructor <;> linarith

/-- C9: on every successful stats query, `get_blocked_percentage` returns
the summary's percent_blocked rounded half-even to two decimal places: the
result times 100 is an integer and it sits within 1/200 of the raw value. -/
theorem C9_blocked_percentage_two_decimals :
    ∀ (w : World) (ip pw : String) (sid : Option String) (s : SummaryJson)
      (qs : QueriesJson) (q : ℚ),
      authenticate w.postAuthResult = Except.ok sid →
      w.summaryResp = HttpGet.okResp (Except.ok s) →
      s.queries = some qs → qs.percent_blocked = some q →
      (get_blocked_percentage w ip pw).1 = Val.num (format2f q) ∧
      format2f q * 100 = ((roundHalfEven (q * 100) : ℤ) : ℚ) ∧
      |format2f q - q| ≤ 1 / 200 := by
  intro w ip pw sid s qs q hA hS hq hp
  refine ⟨?_, ?_, ?_⟩
  · unfold get_blocked_percentage
    rw [hA, hS]
    simp [hq, hp, logout]
  · unfold format2f
    ring
  · unfold format2f
    have hdist := roundHalfEven_dist (q * 100)
    have h2 : (roundHalfEven (q * 100) : ℚ) / 100 - q =
        ((roundHalfEven (q * 100) : ℚ) - q * 100) / 100 := by ring
    rw [h2, abs_div, abs_of_pos (show (0 : ℚ) < 100 by norm_num)]
    linarith

/-- C9 witness: the theorem applied to the healthy world whose summary
reports 12.345 percent blocked; the collector returns 12.34, not the raw
value. -/
theorem C9_blocked_percentage_two_decimals_witness :
    authenticate wAllOk.postAuthResult = Except.ok (some "S") ∧
    (get_blocked_percentage wAllOk pihole1_ip "pw").1 =
      Val.num (format2f (2469 / 200)) ∧
    |format2f (2469 / 200) - 2469 / 200| ≤ 1 / 200 ∧
    format2f (2469 / 200) = 617 / 50 ∧
    format2f (2469 / 200) ≠ 2469 / 200 :=
  ⟨rfl,
   (C9_blocked_percentage_two_decimals wAllOk pihole1_ip "pw" (some "S")
     ⟨some ⟨some (2469 / 200)⟩⟩ ⟨some (2469 / 200)⟩ (2469 / 200)
     rfl rfl rfl rfl).1,
   (C9_blocked_percentage_two_decimals wAllOk pihole1_ip "pw" (some "S")
     ⟨some ⟨some (2469 / 200)⟩⟩ ⟨some (2469 / 200)⟩ (2469 / 200)
     rfl rfl rfl rfl).2.2,
   by unfold format2f roundHalfEven; norm_num,
   by unfold format2f roundHalfEven; norm_num⟩

/-- C10: when auth and the stats query succeed but the queries object lacks
the percent_blocked key, `get_blocked_percentage` returns the float 0.0 —
indistinguishable from a true 0% blocking rate and distinct from the "N/A"
failure sentinel. -/
theorem C10_missing_key_returns_zero :
    ∀ (w : World) (ip pw : String) (sid : Option String) (s : SummaryJson)
      (qs : QueriesJson),
      authenticate w.postAuthResult = Except.ok sid →
      w.summaryResp = HttpGet.okResp (Except.ok s) →
      s.queries = some qs → qs.percent_blocked = none →
      (get_blocked_percentage w ip pw).1 = Val.num 0 ∧
      (get_blocked_percentage w ip pw).1 ≠ NA ∧
      Val.num 0 = Val.num (format2f 0) := by
  intro w ip pw sid s qs hA hS hq hp
  have hz : format2f 0 = 0 := by
    unfold format2f roundHalfEven
    norm_num
  have hmain : (get_blocked_percentage w ip pw).1 = Val.num 0 := by
    unfold get_blocked_percentage
    rw [hA, hS]
    simp [hq, hp, logout, hz]
  refine ⟨hmain, ?_, by rw [hz]⟩
  rw [hmain]
  simp [NA]

/-- C10 witness: the theorem applied to the concrete world whose summary
has a queries object without the percent_blocked key. -/
theorem C10_missing_key_returns_zero_witness :
    authenticate wNoKey.postAuthResult = Except.ok (some "S") ∧
    (get_blocked_percentage wNoKey localhost "pw").1 = Val.num 0 ∧
    (get_blocked_percentage wNoKey localhost "pw").1 ≠ NA :=
  ⟨rfl,
   (C10_missing_key_returns_zero wNoKey localhost "pw" (some "S")
     ⟨some ⟨none⟩⟩ ⟨none⟩ rfl rfl rfl rfl).1,
   (C10_missing_key_returns_zero wNoKey localhost "pw" (some "S")
     ⟨some ⟨none⟩⟩ ⟨none⟩ rfl rfl rfl rfl).2.1⟩

end StatusDisplay
